import Mathlib

/-!
Shallow embedding of `src/main.py` (the AWS EC2 Langraph deployment script).

The script talks to the EC2 control plane through boto3.  We embed the
control plane as an explicit state (`St`): the security groups, instances and
monitoring flags the provider holds, a supply of identifiers the provider
hands out, per-operation fault-injection fields standing for provider-side
failures, and an observation trace (API calls, log lines, sleeps).

Python control flow is embedded as a state-passing exception monad
`PyM α = St → Except PyExc α × St`: `sys.exit(1)` is `PyExc.systemExit 1`,
a botocore `ClientError` is `PyExc.clientError msg` (caught by
`tryClientError`, the embedding of `except ClientError`), a boto3 waiter
timeout is `PyExc.waiterError` (not a `ClientError`, so it is never caught
by the script), and Python's `list[0]` on an empty list is `PyExc.indexError`.
-/

set_option maxRecDepth 4000

namespace Ec2Deploy

/-- Python-level exceptions and process exits observable from `src/main.py`. -/
inductive PyExc where
  | clientError (msg : String)
  | waiterError (msg : String)
  | indexError
  | systemExit (code : Nat)
deriving DecidableEq, Repr

/-- One ingress rule tuple, as passed to `authorize_security_group_ingress`. -/
structure IpPermission where
  ipProtocol : String
  fromPort : Nat
  toPort : Nat
  ipRanges : List String
deriving DecidableEq, Repr

/-- A provider-side security group record. -/
structure SecurityGroup where
  groupId : String
  groupName : String
  vpcId : String
  ingress : List IpPermission
deriving DecidableEq, Repr

/-- A resource tag, as in the `TagSpecifications` of `create_instances`. -/
structure Tag where
  key : String
  value : String
deriving DecidableEq, Repr

/-- Provider-reported instance lifecycle state used by the script. -/
inductive InstState where
  | pending
  | running
deriving DecidableEq, Repr

/-- The request record passed to `ec2_resource.create_instances` (src/main.py lines 105-117). -/
structure RunInstancesReq where
  imageId : String
  instanceType : String
  keyName : String
  minCount : Nat
  maxCount : Nat
  securityGroupIds : List String
  tags : List Tag
  userData : String
deriving DecidableEq, Repr

/-- A provider-side instance record.  `runningAfterPolls`/`plannedIp` are the
provider's behaviour for this instance: after how many waiter polls it reports
`running` (`none` = never), and which public address it then exposes. -/
structure Inst where
  instanceId : String
  imageId : String
  instanceType : String
  keyName : String
  securityGroupIds : List String
  tags : List Tag
  userData : String
  state : InstState
  publicIp : Option String
  runningAfterPolls : Option Nat
  plannedIp : Option String
deriving DecidableEq, Repr

/-- The cloud API calls the script issues, recorded in order. -/
inductive ApiCall where
  | describeVpcsCall
  | createSecurityGroupCall (groupName description vpcId : String)
  | authorizeIngressCall (groupId : String) (perms : List IpPermission)
  | describeSecurityGroupsCall (groupNames : List String)
  | createInstancesCall (req : RunInstancesReq)
  | waitUntilRunningCall (instanceId : String)
  | monitorInstancesCall (instanceIds : List String)
deriving DecidableEq, Repr

/-- A log line emitted through the `logging` module. -/
inductive LogEntry where
  | info (msg : String)
  | warning (msg : String)
  | error (msg : String)
deriving DecidableEq, Repr

/-- The cloud-client state the script runs against, together with the
observation trace of the run (API calls, log, sleeps). -/
structure St where
  vpcs : List String
  groups : List SecurityGroup
  instances : List Inst
  monitored : List String
  groupIdSupply : List String
  instanceIdSupply : List String
  runningAfterPolls : Option Nat
  plannedIp : Option String
  waiterMaxAttempts : Nat
  createGroupFault : Option String
  createInstanceFault : Option String
  monitorFault : Option String
  calls : List ApiCall
  log : List LogEntry
  sleeps : List Nat
deriving DecidableEq, Repr

/-- State-passing embedding of a Python computation over the cloud client. -/
def PyM (α : Type) : Type := St → Except PyExc α × St

/-- Sequencing of two Python computations; an uncaught exception propagates. -/
def pyBind {α β : Type} (x : PyM α) (f : α → PyM β) : PyM β := fun st =>
  match x st with
  | (Except.ok a, st1) => f a st1
  | (Except.error e, st1) => (Except.error e, st1)

/-- A pure value. -/
def pyPure {α : Type} (a : α) : PyM α := fun st => (Except.ok a, st)

/-- Raising a Python exception. -/
def pyThrow {α : Type} (e : PyExc) : PyM α := fun st => (Except.error e, st)

/-- Embedding of `try: ... except ClientError as e: ...`: only `ClientError`
is caught; waiter errors, index errors and `SystemExit` propagate. -/
def tryClientError {α : Type} (x : PyM α) (handler : String → PyM α) : PyM α := fun st =>
  match x st with
  | (Except.error (PyExc.clientError m), st1) => handler m st1
  | r => r

/-- Embedding of Python's `xs[0]`: `IndexError` on an empty list. -/
def pyIndex0 {α : Type} (xs : List α) : PyM α := fun st =>
  match xs with
  | [] => (Except.error PyExc.indexError, st)
  | a :: _ => (Except.ok a, st)

/-- `logging.info`. -/
def logInfo (m : String) : PyM Unit := fun st =>
  (Except.ok (), { st with log := st.log ++ [LogEntry.info m] })

/-- `logging.warning`. -/
def logWarning (m : String) : PyM Unit := fun st =>
  (Except.ok (), { st with log := st.log ++ [LogEntry.warning m] })

/-- `logging.error`. -/
def logError (m : String) : PyM Unit := fun st =>
  (Except.ok (), { st with log := st.log ++ [LogEntry.error m] })

/-- `time.sleep`, recorded in the trace. -/
def pySleep (n : Nat) : PyM Unit := fun st =>
  (Except.ok (), { st with sleeps := st.sleeps ++ [n] })

/-- Record an API call in the trace. -/
def recordCall (c : ApiCall) (st : St) : St := { st with calls := st.calls ++ [c] }

/-- Does `p` lead the character list `s`? -/
def leadsChars (p s : List Char) : Bool :=
  match p, s with
  | [], _ => true
  | _ :: _, [] => false
  | a :: p1, b :: s1 => a == b && leadsChars p1 s1

/-- Does `n` occur as a contiguous run inside `h`? -/
def subChars (n h : List Char) : Bool :=
  match h with
  | [] => n.isEmpty
  | _ :: t => leadsChars n h || subChars n t

/-- Embedding of Python's `needle in hay` on strings (substring test). -/
def strHasSub (needle hay : String) : Bool := subChars needle.data hay.data

/-- The message of the provider's duplicate-name rejection; the script
classifies errors by testing for the substring "InvalidGroup.Duplicate". -/
def duplicateGroupMsg : String :=
  "An error occurred (InvalidGroup.Duplicate) when calling the CreateSecurityGroup operation: The security group already exists"

/-- Message of the waiter's timeout failure. -/
def waiterTimeoutMsg : String :=
  "Waiter InstanceRunning failed: Max attempts exceeded"

/-- Cloud client: `create_security_group`.  Fails with the injected fault if
one is set; fails with a duplicate-name `ClientError` when a group with the
same name already exists in the same VPC; otherwise creates the group with
the next provider-assigned identifier and an empty rule set. -/
def apiCreateSecurityGroup (name description vpcId : String) : PyM String := fun st0 =>
  let st := recordCall (ApiCall.createSecurityGroupCall name description vpcId) st0
  match st.createGroupFault with
  | some msg => (Except.error (PyExc.clientError msg), st)
  | none =>
    if st.groups.any (fun g => g.groupName == name && g.vpcId == vpcId) then
      (Except.error (PyExc.clientError duplicateGroupMsg), st)
    else
      let gid := st.groupIdSupply.headD "sg-fresh"
      (Except.ok gid,
        { st with groups := SecurityGroup.mk gid name vpcId [] :: st.groups,
                  groupIdSupply := st.groupIdSupply.tail })

/-- Cloud client: `authorize_security_group_ingress`, appending the permitted
rules to the named group. -/
def apiAuthorizeIngress (gid : String) (perms : List IpPermission) : PyM Unit := fun st0 =>
  let st := recordCall (ApiCall.authorizeIngressCall gid perms) st0
  if st.groups.any (fun g => g.groupId == gid) then
    (Except.ok (),
      { st with groups := st.groups.map fun g =>
          if g.groupId == gid then { g with ingress := g.ingress ++ perms } else g })
  else
    (Except.error (PyExc.clientError "An error occurred (InvalidGroup.NotFound) when calling the AuthorizeSecurityGroupIngress operation"), st)

/-- Cloud client: `describe_security_groups(GroupNames=...)`, returning the
groups whose name is listed. -/
def apiDescribeSecurityGroups (names : List String) : PyM (List SecurityGroup) := fun st0 =>
  let st := recordCall (ApiCall.describeSecurityGroupsCall names) st0
  (Except.ok (st.groups.filter fun g => names.contains g.groupName), st)

/-- Cloud client: `describe_vpcs`, returning the VPC identifiers. -/
def apiDescribeVpcs : PyM (List String) := fun st0 =>
  let st := recordCall ApiCall.describeVpcsCall st0
  (Except.ok st.vpcs, st)

/-- Cloud client: `create_instances`.  Fails with the injected fault if one is
set; otherwise creates `maxCount` instances in the `pending` state with
provider-assigned identifiers, carrying the provider's planned behaviour. -/
def apiCreateInstances (req : RunInstancesReq) : PyM (List Inst) := fun st0 =>
  let st := recordCall (ApiCall.createInstancesCall req) st0
  match st.createInstanceFault with
  | some msg => (Except.error (PyExc.clientError msg), st)
  | none =>
    let made := (List.range req.maxCount).map fun k =>
      Inst.mk (st.instanceIdSupply.getD k "i-auto")
        req.imageId req.instanceType req.keyName req.securityGroupIds req.tags req.userData
        InstState.pending none st.runningAfterPolls st.plannedIp
    (Except.ok made,
      { st with instances := made ++ st.instances,
                instanceIdSupply := st.instanceIdSupply.drop req.maxCount })

/-- Cloud client: the `instance.wait_until_running()` waiter followed by the
`instance.reload()` re-read (src/main.py lines 120-121), as the single
`waitUntilRunning` capability of the spec's client interface.  The waiter
polls with a bounded number of attempts (`waiterMaxAttempts`); if the
instance does not report `running` within the bound, a waiter timeout error
is raised — this is not a `ClientError`.  On success the reloaded instance,
now `running` and holding its public address, is returned. -/
def apiWaitUntilRunning (iid : String) : PyM Inst := fun st0 =>
  let st := recordCall (ApiCall.waitUntilRunningCall iid) st0
  match st.instances.find? (fun i => i.instanceId == iid) with
  | none => (Except.error (PyExc.waiterError waiterTimeoutMsg), st)
  | some i =>
    match i.runningAfterPolls with
    | some k =>
      if k ≤ st.waiterMaxAttempts then
        let i2 := { i with state := InstState.running, publicIp := i.plannedIp }
        (Except.ok i2,
          { st with instances := st.instances.map fun j =>
              if j.instanceId == iid then i2 else j })
      else (Except.error (PyExc.waiterError waiterTimeoutMsg), st)
    | none => (Except.error (PyExc.waiterError waiterTimeoutMsg), st)

/-- Cloud client: `monitor_instances`.  Fails with the injected fault if one
is set; otherwise records monitoring as enabled for the given instances. -/
def apiMonitorInstances (ids : List String) : PyM Unit := fun st0 =>
  let st := recordCall (ApiCall.monitorInstancesCall ids) st0
  match st.monitorFault with
  | some msg => (Except.error (PyExc.clientError msg), st)
  | none => (Except.ok (), { st with monitored := st.monitored ++ ids })

/-- Rendering of an optional address the way Python prints it in f-strings. -/
def ipStr : Option String → String
  | some s => s
  | none => "None"

/-- Configuration constant (src/main.py line 10; `os.getenv` default). -/
def AWS_REGION : String := "us-east-1"

/-- Configuration constant (src/main.py line 11). -/
def EC2_INSTANCE_TYPE : String := "t3.medium"

/-- Configuration constant (src/main.py line 12; `os.getenv` default). -/
def EC2_AMI_ID : String := "ami-0c94855ba95c71c99"

/-- Configuration constant (src/main.py line 13; `os.getenv` default). -/
def EC2_KEY_NAME : String := "my-ec2-keypair"

/-- Configuration constant (src/main.py line 14): the hardcoded group name. -/
def EC2_SECURITY_GROUP_NAME : String := "langraph-web-sg"

/-- Configuration constant (src/main.py line 15): the instance Name tag. -/
def EC2_TAG_NAME : String := "LangraphWebServer"

/-- The boot payload (src/main.py lines 16-45), passed through opaquely. -/
def EC2_USER_DATA_SCRIPT : String := "#!/bin/bash\nsudo apt-get update -y\nsudo apt-get install -y python3-pip nginx\npip3 install langraph flask\ncat <<EOF > /home/ubuntu/app.py\nfrom flask import Flask, request, jsonify\nimport langraph\n\napp = Flask(__name__)\n\n@app.route(\x27/\x27)\ndef home():\n    return \x22Welcome to Langraph-powered Website!\x22\n\n@app.route(\x27/ai\x27, methods=[\x27POST\x27])\ndef ai_feature():\n    data = request.json\n    # Example: Use Langraph to process input\n    result = langraph.process(data.get(\x27text\x27, \x27\x27))\n    return jsonify(\x7b\x27result\x27: result\x7d)\n\nif __name__ == \x27__main__\x27:\n    app.run(host=\x270.0.0.0\x27, port=5000)\nEOF\nnohup python3 /home/ubuntu/app.py &\nsudo rm /etc/nginx/sites-enabled/default\necho \x27server \x7b listen 80; location / \x7b proxy_pass http://localhost:5000; \x7d \x7d\x27 | sudo tee /etc/nginx/sites-available/langraph\nsudo ln -s /etc/nginx/sites-available/langraph /etc/nginx/sites-enabled/\nsudo systemctl restart nginx\n"

/-- The ingress rules the script authorizes (src/main.py lines 66-79):
TCP 22 and TCP 80, each from 0.0.0.0/0. -/
def ingressPermissions : List IpPermission :=
  [IpPermission.mk "tcp" 22 22 ["0.0.0.0/0"],
   IpPermission.mk "tcp" 80 80 ["0.0.0.0/0"]]

/-- The description string of the created group (src/main.py line 57). -/
def sgDescription : String := "Security group for Langraph web server"

/-- Embedding of `create_security_group(ec2, vpc_id)` (src/main.py lines 53-90). -/
def create_security_group (vpc_id : String) : PyM String :=
  tryClientError
    (pyBind (apiCreateSecurityGroup EC2_SECURITY_GROUP_NAME sgDescription vpc_id) fun sg_id =>
     pyBind (logInfo ("Created security group " ++ EC2_SECURITY_GROUP_NAME ++ " with ID " ++ sg_id)) fun _ =>
     pyBind (apiAuthorizeIngress sg_id ingressPermissions) fun _ =>
     pyBind (logInfo "Configured security group ingress rules.") fun _ =>
     pyPure sg_id)
    (fun e =>
      if strHasSub "InvalidGroup.Duplicate" e then
        pyBind (apiDescribeSecurityGroups [EC2_SECURITY_GROUP_NAME]) fun sgs =>
        pyBind (pyIndex0 sgs) fun g =>
        pyPure g.groupId
      else
        pyBind (logError ("Error creating security group: " ++ e)) fun _ =>
        pyThrow (PyExc.systemExit 1))

/-- The request record `launch_ec2_instance` passes to `create_instances`
(src/main.py lines 105-117). -/
def runInstancesRequest (sg_id : String) : RunInstancesReq :=
  RunInstancesReq.mk EC2_AMI_ID EC2_INSTANCE_TYPE EC2_KEY_NAME 1 1 [sg_id]
    [Tag.mk "Name" EC2_TAG_NAME] EC2_USER_DATA_SCRIPT

/-- Embedding of `launch_ec2_instance()` (src/main.py lines 92-127).  Note
that the `try` only covers the creation/wait block, not `describe_vpcs` or
`create_security_group`, and that a waiter timeout is not a `ClientError`
and therefore escapes the `except` clause. -/
def launch_ec2_instance : PyM Inst :=
  pyBind apiDescribeVpcs fun vpcs =>
  pyBind (pyIndex0 vpcs) fun vpc_id =>
  pyBind (create_security_group vpc_id) fun sg_id =>
  tryClientError
    (pyBind (apiCreateInstances (runInstancesRequest sg_id)) fun instances =>
     pyBind (pyIndex0 instances) fun inst =>
     pyBind (logInfo ("Launching EC2 instance " ++ inst.instanceId ++ "...")) fun _ =>
     pyBind (apiWaitUntilRunning inst.instanceId) fun inst2 =>
     pyBind (logInfo ("EC2 instance is running at " ++ ipStr inst2.publicIp)) fun _ =>
     pyPure inst2)
    (fun e =>
      pyBind (logError ("Error launching EC2 instance: " ++ e)) fun _ =>
      pyThrow (PyExc.systemExit 1))

/-- Embedding of `setup_monitoring(instance_id)` (src/main.py lines 129-136). -/
def setup_monitoring (instance_id : String) : PyM Unit :=
  tryClientError
    (pyBind (apiMonitorInstances [instance_id]) fun _ =>
     logInfo ("Enabled detailed monitoring for instance " ++ instance_id))
    (fun e => logWarning ("Could not enable monitoring: " ++ e))

/-- The terminal report line (src/main.py line 155). -/
def deploymentCompleteMsg : String :=
  "Deployment complete. Monitor instance in AWS Console for resource usage and uptime."

/-- Embedding of `main()` (src/main.py lines 138-155). -/
def main : PyM Unit :=
  pyBind (logInfo "Starting Langraph website deployment on AWS EC2...") fun _ =>
  pyBind launch_ec2_instance fun inst =>
  pyBind (setup_monitoring inst.instanceId) fun _ =>
  pyBind (logInfo "Waiting for web server to start...") fun _ =>
  pyBind (pySleep 60) fun _ =>
  pyBind (logInfo ("Website should be available at: http://" ++ ipStr inst.publicIp ++ "/")) fun _ =>
  pyBind (logInfo ("AI-powered features available at: http://" ++ ipStr inst.publicIp ++ "/ai (POST JSON: \x7b\x27text\x27: \x27your input\x27\x7d)")) fun _ =>
  logInfo deploymentCompleteMsg

instance {ε α : Type} [DecidableEq ε] [DecidableEq α] : DecidableEq (Except ε α) := fun a b =>
  match a, b with
  | Except.ok x, Except.ok y =>
    if h : x = y then Decidable.isTrue (by rw [h])
    else Decidable.isFalse (by intro hc; cases hc; exact h rfl)
  | Except.error x, Except.error y =>
    if h : x = y then Decidable.isTrue (by rw [h])
    else Decidable.isFalse (by intro hc; cases hc; exact h rfl)
  | Except.ok _, Except.error _ => Decidable.isFalse (by intro hc; cases hc)
  | Except.error _, Except.ok _ => Decidable.isFalse (by intro hc; cases hc)

/-- The security groups of a state carrying the hardcoded group name. -/
def groupsNamed (st : St) : List SecurityGroup :=
  st.groups.filter fun g => g.groupName == EC2_SECURITY_GROUP_NAME

/-- Whether a state holds a group that collides with the hardcoded name in
the given VPC (the condition under which the provider rejects creation as a
duplicate). -/
def hasDupGroup (st : St) (v : String) : Bool :=
  st.groups.any fun g => g.groupName == EC2_SECURITY_GROUP_NAME && g.vpcId == v

/-- The identifier the provider assigns to the next created security group. -/
def nextGroupId (st : St) : String := st.groupIdSupply.headD "sg-fresh"

/-- The identifier the provider assigns to the next created instance. -/
def nextInstanceId (st : St) : String := st.instanceIdSupply.getD 0 "i-auto"

/-- The instance record `create_instances` makes for the script's request. -/
def madeInstance (st : St) (sg : String) : Inst :=
  Inst.mk (nextInstanceId st) EC2_AMI_ID EC2_INSTANCE_TYPE EC2_KEY_NAME [sg]
    [Tag.mk "Name" EC2_TAG_NAME] EC2_USER_DATA_SCRIPT InstState.pending none
    st.runningAfterPolls st.plannedIp

/-- The same instance after the waiter saw it reach `running`. -/
def runInstance (st : St) (sg : String) : Inst :=
  { madeInstance st sg with state := InstState.running, publicIp := st.plannedIp }

/-- Number of `create_security_group` calls for a given group name in a trace. -/
def countCreateGroupCallsFor (name : String) (cs : List ApiCall) : Nat :=
  (cs.filter fun c =>
    match c with
    | ApiCall.createSecurityGroupCall n _ _ => n == name
    | _ => false).length

/-- Number of `create_instances` calls in a trace. -/
def countCreateInstanceCalls (cs : List ApiCall) : Nat :=
  (cs.filter fun c =>
    match c with
    | ApiCall.createInstancesCall _ => true
    | _ => false).length

/-- Number of `monitor_instances` calls in a trace. -/
def countMonitorCalls (cs : List ApiCall) : Nat :=
  (cs.filter fun c =>
    match c with
    | ApiCall.monitorInstancesCall _ => true
    | _ => false).length

/-- Number of occurrences of a log entry in a log. -/
def logCount (e : LogEntry) (l : List LogEntry) : Nat :=
  (l.filter fun x => x == e).length

/-- Modelled from the spec: the Deployment Result record of spec section 3,
"{instance identifier, public address, monitoring-enabled flag}".  The code
has no such record (it reports through log lines), so this names what the
spec says a run produces; it is read off the final client state. -/
structure DeploymentResult where
  instanceId : String
  address : Option String
  monitoringEnabled : Bool
deriving DecidableEq, Repr

/-- Modelled from the spec: the Deployment Result observable from a final
state — the most recently created instance's identifier and address, and
whether monitoring is enabled for it. -/
def deploymentResultOf (st : St) : Option DeploymentResult :=
  st.instances.head?.map fun i =>
    DeploymentResult.mk i.instanceId i.publicIp (st.monitored.contains i.instanceId)

/-- The end-to-end scenario state of spec section 8: a fake client with one
network, no pre-existing groups or instances, creating group "sg-001" and
instance "i-001" which reaches `running` after 2 polls with address
203.0.113.5. -/
def scenarioSt : St :=
  St.mk ["vpc-1"] [] [] [] ["sg-001"] ["i-001"] (some 2) (some "203.0.113.5") 40
    none none none [] [] []

end Ec2Deploy

namespace Ec2Deploy

/-- Path lemma: a provider failure not classified as duplicate makes
`create_security_group` log the error and exit with status 1. -/
theorem csg_nondupFault (v m : String) (st : St)
    (hf : st.createGroupFault = some m)
    (hnd : strHasSub "InvalidGroup.Duplicate" m = false) :
    create_security_group v st =
      (Except.error (PyExc.systemExit 1),
       { st with
         calls := st.calls ++ [ApiCall.createSecurityGroupCall EC2_SECURITY_GROUP_NAME sgDescription v],
         log := st.log ++ [LogEntry.error ("Error creating security group: " ++ m)] }) := by
  simp [create_security_group, tryClientError, pyBind, pyPure, pyThrow,
    apiCreateSecurityGroup, recordCall, hf, hnd, logError]

/-- Path lemma: an injected duplicate-classified failure with a group of the
hardcoded name present makes `create_security_group` fall back to one lookup
and return the first such group's identifier. -/
theorem csg_dupFault_found (v m : String) (st : St) (g0 : SecurityGroup) (rest : List SecurityGroup)
    (hf : st.createGroupFault = some m)
    (hd : strHasSub "InvalidGroup.Duplicate" m = true)
    (hg : groupsNamed st = g0 :: rest) :
    create_security_group v st =
      (Except.ok g0.groupId,
       { st with
         calls := st.calls ++ [ApiCall.createSecurityGroupCall EC2_SECURITY_GROUP_NAME sgDescription v,
                               ApiCall.describeSecurityGroupsCall [EC2_SECURITY_GROUP_NAME]] }) := by
  have hg2 : List.filter (fun g => decide (g.groupName = EC2_SECURITY_GROUP_NAME)) st.groups = g0 :: rest := by
    simpa [groupsNamed] using hg
  simp [create_security_group, tryClientError, pyBind, pyPure, pyThrow,
    apiCreateSecurityGroup, recordCall, hf, hd, apiDescribeSecurityGroups, pyIndex0, hg2]

/-- Path lemma: an injected duplicate-classified failure with no group of the
hardcoded name present makes the fallback lookup return an empty list, and
the script raises an uncaught `IndexError` (not the logged exit path). -/
theorem csg_dupFault_empty (v m : String) (st : St)
    (hf : st.createGroupFault = some m)
    (hd : strHasSub "InvalidGroup.Duplicate" m = true)
    (hg : groupsNamed st = []) :
    create_security_group v st =
      (Except.error PyExc.indexError,
       { st with
         calls := st.calls ++ [ApiCall.createSecurityGroupCall EC2_SECURITY_GROUP_NAME sgDescription v,
                               ApiCall.describeSecurityGroupsCall [EC2_SECURITY_GROUP_NAME]] }) := by
  have hg2 : List.filter (fun g => decide (g.groupName = EC2_SECURITY_GROUP_NAME)) st.groups = [] := by
    simpa [groupsNamed] using hg
  simp [create_security_group, tryClientError, pyBind, pyPure, pyThrow,
    apiCreateSecurityGroup, recordCall, hf, hd, apiDescribeSecurityGroups, pyIndex0, hg2]

/-- Path lemma: with no injected fault and a colliding group in the target
VPC, creation is rejected as a duplicate and the fallback returns the first
group of that name, touching no group state. -/
theorem csg_dupExists_found (v : String) (st : St) (g0 : SecurityGroup) (rest : List SecurityGroup)
    (hf : st.createGroupFault = none)
    (hd : hasDupGroup st v = true)
    (hg : groupsNamed st = g0 :: rest) :
    create_security_group v st =
      (Except.ok g0.groupId,
       { st with
         calls := st.calls ++ [ApiCall.createSecurityGroupCall EC2_SECURITY_GROUP_NAME sgDescription v,
                               ApiCall.describeSecurityGroupsCall [EC2_SECURITY_GROUP_NAME]] }) := by
  have hg2 : List.filter (fun g => decide (g.groupName = EC2_SECURITY_GROUP_NAME)) st.groups = g0 :: rest := by
    simpa [groupsNamed] using hg
  have hd2 := hd
  simp only [hasDupGroup] at hd2
  have hdup : strHasSub "InvalidGroup.Duplicate" duplicateGroupMsg = true := by decide
  simp [create_security_group, tryClientError, pyBind, pyPure, pyThrow,
    apiCreateSecurityGroup, recordCall, hf, hd2, hdup,
    apiDescribeSecurityGroups, pyIndex0, hg2]

/-- Path lemma: with no injected fault and no colliding group in the target
VPC, `create_security_group` creates the group, applies the ingress rules to
it and returns its fresh identifier. -/
theorem csg_fresh (v : String) (st : St)
    (hf : st.createGroupFault = none)
    (hd : hasDupGroup st v = false) :
    create_security_group v st =
      (Except.ok (nextGroupId st),
       { st with
         groups := (SecurityGroup.mk (nextGroupId st) EC2_SECURITY_GROUP_NAME v [] :: st.groups).map
           (fun g => if g.groupId == nextGroupId st then { g with ingress := g.ingress ++ ingressPermissions } else g),
         groupIdSupply := st.groupIdSupply.tail,
         calls := st.calls ++ [ApiCall.createSecurityGroupCall EC2_SECURITY_GROUP_NAME sgDescription v,
                               ApiCall.authorizeIngressCall (nextGroupId st) ingressPermissions],
         log := st.log ++ [LogEntry.info ("Created security group " ++ EC2_SECURITY_GROUP_NAME ++ " with ID " ++ nextGroupId st),
                           LogEntry.info "Configured security group ingress rules."] }) := by
  have hd2 : st.groups.any (fun g => g.groupName == EC2_SECURITY_GROUP_NAME && g.vpcId == v) = false := hd
  simp [create_security_group, tryClientError, pyBind, pyPure, pyThrow,
    apiCreateSecurityGroup, recordCall, hf, hd2, nextGroupId,
    apiAuthorizeIngress, logInfo]

end Ec2Deploy

namespace Ec2Deploy

/-- Path lemma: with no VPCs in the client's response, `launch_ec2_instance`
raises an uncaught `IndexError` on the first subscript. -/
theorem launch_vpcs_nil (st : St) (hv : st.vpcs = []) :
    launch_ec2_instance st =
      (Except.error PyExc.indexError,
       { st with calls := st.calls ++ [ApiCall.describeVpcsCall] }) := by
  simp [launch_ec2_instance, pyBind, apiDescribeVpcs, recordCall, pyIndex0, hv]

/-- Path lemma: a failure escaping `create_security_group` propagates out of
`launch_ec2_instance` unchanged. -/
theorem launch_sg_err (st stB : St) (v : String) (vs : List String) (e : PyExc)
    (hv : st.vpcs = v :: vs)
    (hc : create_security_group v { st with calls := st.calls ++ [ApiCall.describeVpcsCall] } =
      (Except.error e, stB)) :
    launch_ec2_instance st = (Except.error e, stB) := by
  rw [hv] at hc
  simp [launch_ec2_instance, pyBind, apiDescribeVpcs, recordCall, pyIndex0, hv, hc]

/-- Path lemma: when the group is resolved but instance creation is rejected,
`launch_ec2_instance` logs the error and exits with status 1, issuing no
further calls. -/
theorem launch_createFault (st stB : St) (v sg m : String) (vs : List String)
    (hv : st.vpcs = v :: vs)
    (hc : create_security_group v { st with calls := st.calls ++ [ApiCall.describeVpcsCall] } =
      (Except.ok sg, stB))
    (hcf : stB.createInstanceFault = some m) :
    launch_ec2_instance st =
      (Except.error (PyExc.systemExit 1),
       { stB with
         calls := stB.calls ++ [ApiCall.createInstancesCall (runInstancesRequest sg)],
         log := stB.log ++ [LogEntry.error ("Error launching EC2 instance: " ++ m)] }) := by
  rw [hv] at hc
  simp [launch_ec2_instance, pyBind, apiDescribeVpcs, recordCall, pyIndex0, hv, hc,
    tryClientError, apiCreateInstances, hcf, logError, pyThrow]

/-- Path lemma: when the created instance never reports `running`, the waiter
raises a timeout error which, not being a `ClientError`, escapes the `except`
clause of `launch_ec2_instance` uncaught. -/
theorem launch_timeout_none (st stB : St) (v sg : String) (vs : List String)
    (hv : st.vpcs = v :: vs)
    (hc : create_security_group v { st with calls := st.calls ++ [ApiCall.describeVpcsCall] } =
      (Except.ok sg, stB))
    (hcf : stB.createInstanceFault = none)
    (hk : stB.runningAfterPolls = none) :
    launch_ec2_instance st =
      (Except.error (PyExc.waiterError waiterTimeoutMsg),
       { stB with
         instances := madeInstance stB sg :: stB.instances,
         instanceIdSupply := stB.instanceIdSupply.drop 1,
         calls := stB.calls ++ [ApiCall.createInstancesCall (runInstancesRequest sg),
                                ApiCall.waitUntilRunningCall (nextInstanceId stB)],
         log := stB.log ++ [LogEntry.info ("Launching EC2 instance " ++ nextInstanceId stB ++ "...")] }) := by
  rw [hv] at hc
  have hr : List.range 1 = [0] := rfl
  simp [launch_ec2_instance, pyBind, apiDescribeVpcs, recordCall, pyIndex0, hv, hc,
    tryClientError, apiCreateInstances, hcf, logInfo, pyPure, apiWaitUntilRunning,
    runInstancesRequest, hr, List.getD, List.find?,
    madeInstance, nextInstanceId, hk]

/-- Path lemma: when the instance would report `running` only after more
polls than the waiter's bound, the waiter times out the same way. -/
theorem launch_timeout_late (st stB : St) (v sg : String) (vs : List String) (k : Nat)
    (hv : st.vpcs = v :: vs)
    (hc : create_security_group v { st with calls := st.calls ++ [ApiCall.describeVpcsCall] } =
      (Except.ok sg, stB))
    (hcf : stB.createInstanceFault = none)
    (hk : stB.runningAfterPolls = some k)
    (hb : stB.waiterMaxAttempts < k) :
    launch_ec2_instance st =
      (Except.error (PyExc.waiterError waiterTimeoutMsg),
       { stB with
         instances := madeInstance stB sg :: stB.instances,
         instanceIdSupply := stB.instanceIdSupply.drop 1,
         calls := stB.calls ++ [ApiCall.createInstancesCall (runInstancesRequest sg),
                                ApiCall.waitUntilRunningCall (nextInstanceId stB)],
         log := stB.log ++ [LogEntry.info ("Launching EC2 instance " ++ nextInstanceId stB ++ "...")] }) := by
  have hb2 : ¬ (k ≤ stB.waiterMaxAttempts) := Nat.not_le.mpr hb
  rw [hv] at hc
  have hr : List.range 1 = [0] := rfl
  simp [launch_ec2_instance, pyBind, apiDescribeVpcs, recordCall, pyIndex0, hv, hc,
    tryClientError, apiCreateInstances, hcf, logInfo, pyPure, apiWaitUntilRunning,
    runInstancesRequest, hr, List.getD, List.find?,
    madeInstance, nextInstanceId, hk, hb2]

/-- Path lemma: the successful launch — group resolved, one instance created,
waiter sees `running` within its bound — returns the reloaded running
instance. -/
theorem launch_ok (st stB : St) (v sg : String) (vs : List String) (k : Nat)
    (hv : st.vpcs = v :: vs)
    (hc : create_security_group v { st with calls := st.calls ++ [ApiCall.describeVpcsCall] } =
      (Except.ok sg, stB))
    (hcf : stB.createInstanceFault = none)
    (hk : stB.runningAfterPolls = some k)
    (hb : k ≤ stB.waiterMaxAttempts) :
    launch_ec2_instance st =
      (Except.ok (runInstance stB sg),
       { stB with
         instances := (madeInstance stB sg :: stB.instances).map
           (fun j => if j.instanceId == nextInstanceId stB then runInstance stB sg else j),
         instanceIdSupply := stB.instanceIdSupply.drop 1,
         calls := stB.calls ++ [ApiCall.createInstancesCall (runInstancesRequest sg),
                                ApiCall.waitUntilRunningCall (nextInstanceId stB)],
         log := stB.log ++ [LogEntry.info ("Launching EC2 instance " ++ nextInstanceId stB ++ "..."),
                            LogEntry.info ("EC2 instance is running at " ++ ipStr stB.plannedIp)] }) := by
  rw [hv] at hc
  have hr : List.range 1 = [0] := rfl
  simp [launch_ec2_instance, pyBind, apiDescribeVpcs, recordCall, pyIndex0, hv, hc,
    tryClientError, apiCreateInstances, hcf, logInfo, pyPure, apiWaitUntilRunning,
    runInstancesRequest, hr, List.getD, List.find?,
    madeInstance, runInstance, nextInstanceId, hk, hb]

end Ec2Deploy

namespace Ec2Deploy

/-- The state effect of `setup_monitoring`: one monitoring call, then either
the success log line and the monitored flag, or a warning. -/
def monEffect (iid : String) (st : St) : St :=
  match st.monitorFault with
  | some m =>
    { st with calls := st.calls ++ [ApiCall.monitorInstancesCall [iid]],
              log := st.log ++ [LogEntry.warning ("Could not enable monitoring: " ++ m)] }
  | none =>
    { st with calls := st.calls ++ [ApiCall.monitorInstancesCall [iid]],
              monitored := st.monitored ++ [iid],
              log := st.log ++ [LogEntry.info ("Enabled detailed monitoring for instance " ++ iid)] }

/-- `setup_monitoring` never raises: a monitoring failure is logged as a
warning and swallowed. -/
theorem setup_monitoring_eq (iid : String) (st : St) :
    setup_monitoring iid st = (Except.ok (), monEffect iid st) := by
  cases hm : st.monitorFault with
  | some m =>
    simp [setup_monitoring, tryClientError, pyBind, apiMonitorInstances, recordCall,
      logInfo, logWarning, monEffect, hm]
  | none =>
    simp [setup_monitoring, tryClientError, pyBind, apiMonitorInstances, recordCall,
      logInfo, logWarning, monEffect, hm]

/-- The tail of `main` after a successful launch: monitoring attempt, settle
wait, endpoint report. -/
def finalize (inst : Inst) (st : St) : St :=
  let st1 := monEffect inst.instanceId st
  { st1 with
    sleeps := st1.sleeps ++ [60],
    log := st1.log ++
      [LogEntry.info "Waiting for web server to start...",
       LogEntry.info ("Website should be available at: http://" ++ ipStr inst.publicIp ++ "/"),
       LogEntry.info ("AI-powered features available at: http://" ++ ipStr inst.publicIp ++ "/ai (POST JSON: \x7b\x27text\x27: \x27your input\x27\x7d)"),
       LogEntry.info deploymentCompleteMsg] }

/-- The state in which `launch_ec2_instance` starts inside `main`: the start
banner has been logged. -/
def afterStartLog (st : St) : St :=
  { st with log := st.log ++ [LogEntry.info "Starting Langraph website deployment on AWS EC2..."] }

/-- Composition lemma: a failure escaping `launch_ec2_instance` is the
outcome of `main`; nothing after the launch step runs. -/
theorem main_launch_err (st st2 : St) (e : PyExc)
    (hl : launch_ec2_instance (afterStartLog st) = (Except.error e, st2)) :
    main st = (Except.error e, st2) := by
  simp [main, pyBind, logInfo, afterStartLog] at hl ⊢
  simp [hl]

/-- Composition lemma: after a successful launch, `main` attempts monitoring,
sleeps 60 seconds and reports, in that order, and returns normally. -/
theorem main_launch_ok (st st2 : St) (inst : Inst)
    (hl : launch_ec2_instance (afterStartLog st) = (Except.ok inst, st2)) :
    main st = (Except.ok (), finalize inst st2) := by
  simp [main, pyBind, logInfo, afterStartLog] at hl ⊢
  simp [hl, setup_monitoring_eq, finalize, pySleep, logInfo]

end Ec2Deploy

namespace Ec2Deploy

/-- The API-call trace of a successful run that created the group afresh. -/
def freshRunTrace (st : St) (v : String) : List ApiCall :=
  [ApiCall.describeVpcsCall,
   ApiCall.createSecurityGroupCall EC2_SECURITY_GROUP_NAME sgDescription v,
   ApiCall.authorizeIngressCall (nextGroupId st) ingressPermissions,
   ApiCall.createInstancesCall (runInstancesRequest (nextGroupId st)),
   ApiCall.waitUntilRunningCall (nextInstanceId st),
   ApiCall.monitorInstancesCall [nextInstanceId st]]

/-- The API-call trace of a successful run that fell back to the duplicate
lookup, returning the existing group `sg`. -/
def dupRunTrace (st : St) (v sg : String) : List ApiCall :=
  [ApiCall.describeVpcsCall,
   ApiCall.createSecurityGroupCall EC2_SECURITY_GROUP_NAME sgDescription v,
   ApiCall.describeSecurityGroupsCall [EC2_SECURITY_GROUP_NAME],
   ApiCall.createInstancesCall (runInstancesRequest sg),
   ApiCall.waitUntilRunningCall (nextInstanceId st),
   ApiCall.monitorInstancesCall [nextInstanceId st]]

/-- A colliding group in the VPC means some group carries the hardcoded name. -/
theorem dup_groupsNamed_ne_nil (st : St) (v : String) (hd : hasDupGroup st v = true) :
    groupsNamed st ≠ [] := by
  simp only [hasDupGroup, List.any_eq_true, Bool.and_eq_true, beq_iff_eq] at hd
  obtain ⟨g, hg, hname, hvpc⟩ := hd
  intro hnil
  have hmem : g ∈ groupsNamed st := List.mem_filter.mpr ⟨hg, by simp [hname]⟩
  rw [hnil] at hmem
  exact (List.not_mem_nil g) hmem

/-- Facts about any successful `main` run, given its resolved security group:
the remaining call trace, the settle sleep, the terminal report line, exactly
one new instance (tagged and running, at the head), and the conditions the
client state must have satisfied. -/
theorem main_tail_facts (st stB : St) (v sg : String) (vs : List String)
    (hv : st.vpcs = v :: vs)
    (hc : create_security_group v
      { afterStartLog st with calls := (afterStartLog st).calls ++ [ApiCall.describeVpcsCall] } =
      (Except.ok sg, stB))
    (h : (main st).1 = Except.ok ()) :
    (main st).2.calls = stB.calls ++
      [ApiCall.createInstancesCall (runInstancesRequest sg),
       ApiCall.waitUntilRunningCall (nextInstanceId stB),
       ApiCall.monitorInstancesCall [nextInstanceId stB]] ∧
    (main st).2.sleeps = stB.sleeps ++ [60] ∧
    (main st).2.log.getLast? = some (LogEntry.info deploymentCompleteMsg) ∧
    (main st).2.instances.length = stB.instances.length + 1 ∧
    (∃ j, (main st).2.instances.head? = some j ∧
      j.tags = [Tag.mk "Name" EC2_TAG_NAME] ∧ j.state = InstState.running) ∧
    stB.createInstanceFault = none ∧
    (∃ k, stB.runningAfterPolls = some k ∧ k ≤ stB.waiterMaxAttempts) := by
  have hv2 : (afterStartLog st).vpcs = v :: vs := by simp [afterStartLog, hv]
  cases hcf : stB.createInstanceFault with
  | some m =>
    rw [main_launch_err st _ _ (launch_createFault (afterStartLog st) stB v sg m vs hv2 hc hcf)] at h
    simp at h
  | none =>
    cases hk : stB.runningAfterPolls with
    | none =>
      rw [main_launch_err st _ _ (launch_timeout_none (afterStartLog st) stB v sg vs hv2 hc hcf hk)] at h
      simp at h
    | some k =>
      by_cases hb : k ≤ stB.waiterMaxAttempts
      · have hl := launch_ok (afterStartLog st) stB v sg vs k hv2 hc hcf hk hb
        rw [main_launch_ok st _ _ hl]
        cases hm : stB.monitorFault with
        | some m =>
          refine ⟨?_, ?_, ?_, ?_, ⟨runInstance stB sg, ?_, by simp [runInstance, madeInstance], by simp [runInstance, madeInstance]⟩, rfl, ⟨k, rfl, hb⟩⟩ <;>
            simp [finalize, monEffect, hm, runInstance, madeInstance, List.append_assoc]
        | none =>
          refine ⟨?_, ?_, ?_, ?_, ⟨runInstance stB sg, ?_, by simp [runInstance, madeInstance], by simp [runInstance, madeInstance]⟩, rfl, ⟨k, rfl, hb⟩⟩ <;>
            simp [finalize, monEffect, hm, runInstance, madeInstance, List.append_assoc]
      · have hb2 : stB.waiterMaxAttempts < k := Nat.lt_of_not_le hb
        rw [main_launch_err st _ _ (launch_timeout_late (afterStartLog st) stB v sg vs k hv2 hc hcf hk hb2)] at h
        simp at h

end Ec2Deploy

namespace Ec2Deploy

/-- Inversion of a successful `main` run: the full call trace (fresh-creation
or duplicate-fallback shaped), the settle sleep, the terminal report, the
exactly-one new tagged running instance, and the client-state conditions a
successful run requires. -/
theorem main_ok_facts (st : St) (h : (main st).1 = Except.ok ()) :
    (∃ v vs, st.vpcs = v :: vs ∧
      ((main st).2.calls = st.calls ++ freshRunTrace st v ∨
       ∃ g0 rest, groupsNamed st = g0 :: rest ∧
         (main st).2.calls = st.calls ++ dupRunTrace st v g0.groupId)) ∧
    (main st).2.sleeps = st.sleeps ++ [60] ∧
    (main st).2.log.getLast? = some (LogEntry.info deploymentCompleteMsg) ∧
    (main st).2.instances.length = st.instances.length + 1 ∧
    (∃ j, (main st).2.instances.head? = some j ∧
      j.tags = [Tag.mk "Name" EC2_TAG_NAME] ∧ j.state = InstState.running) ∧
    st.createInstanceFault = none ∧
    (∃ k, st.runningAfterPolls = some k ∧ k ≤ st.waiterMaxAttempts) ∧
    (st.createGroupFault = none ∨
      ∃ m, st.createGroupFault = some m ∧ strHasSub "InvalidGroup.Duplicate" m = true ∧
        groupsNamed st ≠ []) := by
  cases hv : st.vpcs with
  | nil =>
    rw [main_launch_err st _ _ (launch_vpcs_nil (afterStartLog st) (by simp [afterStartLog, hv]))] at h
    simp at h
  | cons v vs =>
    have hv2 : (afterStartLog st).vpcs = v :: vs := by simp [afterStartLog, hv]
    cases hf : st.createGroupFault with
    | some m =>
      cases hd : strHasSub "InvalidGroup.Duplicate" m with
      | false =>
        have hc := csg_nondupFault v m
          { afterStartLog st with calls := (afterStartLog st).calls ++ [ApiCall.describeVpcsCall] }
          (by simp [afterStartLog, hf]) hd
        rw [main_launch_err st _ _ (launch_sg_err (afterStartLog st) _ v vs _ hv2 hc)] at h
        simp at h
      | true =>
        cases hg : groupsNamed st with
        | nil =>
          have hc := csg_dupFault_empty v m
            { afterStartLog st with calls := (afterStartLog st).calls ++ [ApiCall.describeVpcsCall] }
            (by simp [afterStartLog, hf]) hd
            (by simpa [groupsNamed, afterStartLog] using hg)
          rw [main_launch_err st _ _ (launch_sg_err (afterStartLog st) _ v vs _ hv2 hc)] at h
          simp at h
        | cons g0 rest =>
          have hc := csg_dupFault_found v m
            { afterStartLog st with calls := (afterStartLog st).calls ++ [ApiCall.describeVpcsCall] }
            g0 rest
            (by simp [afterStartLog, hf]) hd
            (by simpa [groupsNamed, afterStartLog] using hg)
          obtain ⟨hA, hB, hCl, hD, hE, hcf, hkk⟩ := main_tail_facts st _ v g0.groupId vs hv hc h
          refine ⟨⟨v, vs, rfl, Or.inr ⟨g0, rest, rfl, ?_⟩⟩, by simpa [afterStartLog] using hB,
            hCl, by simpa [afterStartLog] using hD, hE,
            by simpa [afterStartLog] using hcf,
            by simpa [afterStartLog] using hkk,
            Or.inr ⟨m, rfl, hd, by simp⟩⟩
          simpa [afterStartLog, dupRunTrace, nextInstanceId, List.append_assoc] using hA
    | none =>
      by_cases hdup : hasDupGroup st v = true
      · obtain ⟨g0, rest, hg⟩ := List.exists_cons_of_ne_nil (dup_groupsNamed_ne_nil st v hdup)
        have hc := csg_dupExists_found v
          { afterStartLog st with calls := (afterStartLog st).calls ++ [ApiCall.describeVpcsCall] }
          g0 rest
          (by simp [afterStartLog, hf])
          (by simpa [hasDupGroup, afterStartLog] using hdup)
          (by simpa [groupsNamed, afterStartLog] using hg)
        obtain ⟨hA, hB, hCl, hD, hE, hcf, hkk⟩ := main_tail_facts st _ v g0.groupId vs hv hc h
        refine ⟨⟨v, vs, rfl, Or.inr ⟨g0, rest, hg, ?_⟩⟩, by simpa [afterStartLog] using hB,
          hCl, by simpa [afterStartLog] using hD, hE,
          by simpa [afterStartLog] using hcf,
          by simpa [afterStartLog] using hkk, Or.inl rfl⟩
        simpa [afterStartLog, dupRunTrace, nextInstanceId, List.append_assoc] using hA
      · have hdup2 : hasDupGroup st v = false := by
          cases hx : hasDupGroup st v
          · rfl
          · exact absurd hx hdup
        have hc := csg_fresh v
          { afterStartLog st with calls := (afterStartLog st).calls ++ [ApiCall.describeVpcsCall] }
          (by simp [afterStartLog, hf])
          (by simpa [hasDupGroup, afterStartLog] using hdup2)
        obtain ⟨hA, hB, hCl, hD, hE, hcf, hkk⟩ := main_tail_facts st _ v _ vs hv hc h
        refine ⟨⟨v, vs, rfl, Or.inl ?_⟩, by simpa [afterStartLog] using hB,
          hCl, by simpa [afterStartLog] using hD, hE,
          by simpa [afterStartLog] using hcf,
          by simpa [afterStartLog] using hkk, Or.inl rfl⟩
        simpa [afterStartLog, freshRunTrace, nextGroupId, nextInstanceId, List.append_assoc] using hA

end Ec2Deploy

namespace Ec2Deploy

/-- Converse direction: a client state with a network, a resolvable group, no
instance-creation fault and an in-bound running transition makes `main`
return normally. -/
theorem main_ok_of_conds (st : St) (v : String) (vs : List String) (k : Nat)
    (hv : st.vpcs = v :: vs)
    (hsg : st.createGroupFault = none ∨
      ∃ m, st.createGroupFault = some m ∧ strHasSub "InvalidGroup.Duplicate" m = true ∧
        groupsNamed st ≠ [])
    (hcf : st.createInstanceFault = none)
    (hk : st.runningAfterPolls = some k)
    (hb : k ≤ st.waiterMaxAttempts) :
    (main st).1 = Except.ok () := by
  have hv2 : (afterStartLog st).vpcs = v :: vs := by simp [afterStartLog, hv]
  rcases hsg with hf | ⟨m, hf, hd, hne⟩
  · by_cases hdup : hasDupGroup st v = true
    · obtain ⟨g0, rest, hg⟩ := List.exists_cons_of_ne_nil (dup_groupsNamed_ne_nil st v hdup)
      have hc := csg_dupExists_found v
        { afterStartLog st with calls := (afterStartLog st).calls ++ [ApiCall.describeVpcsCall] }
        g0 rest
        (by simp [afterStartLog, hf])
        (by simpa [hasDupGroup, afterStartLog] using hdup)
        (by simpa [groupsNamed, afterStartLog] using hg)
      rw [main_launch_ok st _ _ (launch_ok (afterStartLog st) _ v g0.groupId vs k hv2 hc
        (by simp [afterStartLog, hcf]) (by simp [afterStartLog, hk]) (by simpa [afterStartLog] using hb))]
    · have hdup2 : hasDupGroup st v = false := by
        cases hx : hasDupGroup st v
        · rfl
        · exact absurd hx hdup
      have hc := csg_fresh v
        { afterStartLog st with calls := (afterStartLog st).calls ++ [ApiCall.describeVpcsCall] }
        (by simp [afterStartLog, hf])
        (by simpa [hasDupGroup, afterStartLog] using hdup2)
      rw [main_launch_ok st _ _ (launch_ok (afterStartLog st) _ v _ vs k hv2 hc
        (by simp [afterStartLog, hcf]) (by simp [afterStartLog, hk]) (by simpa [afterStartLog] using hb))]
  · obtain ⟨g0, rest, hg⟩ := List.exists_cons_of_ne_nil hne
    have hc := csg_dupFault_found v m
      { afterStartLog st with calls := (afterStartLog st).calls ++ [ApiCall.describeVpcsCall] }
      g0 rest
      (by simp [afterStartLog, hf]) hd
      (by simpa [groupsNamed, afterStartLog] using hg)
    rw [main_launch_ok st _ _ (launch_ok (afterStartLog st) _ v g0.groupId vs k hv2 hc
      (by simp [afterStartLog, hcf]) (by simp [afterStartLog, hk]) (by simpa [afterStartLog] using hb))]

end Ec2Deploy

namespace Ec2Deploy

/-- A group of the hardcoded name in the given VPC makes the provider reject
creation as a duplicate. -/
theorem hasDupGroup_of_mem (st : St) (v : String) (g : SecurityGroup)
    (hg : g ∈ st.groups) (hn : g.groupName = EC2_SECURITY_GROUP_NAME) (hvp : g.vpcId = v) :
    hasDupGroup st v = true := by
  simp only [hasDupGroup, List.any_eq_true]
  exact ⟨g, hg, by simp [hn, hvp]⟩

/-- Applying ingress rules to a group by identifier commutes with filtering
groups by name, since it changes no group's name. -/
theorem filter_named_map_authorize (gs : List SecurityGroup) (gid : String) (perms : List IpPermission) :
    (gs.map (fun g => if g.groupId == gid then { g with ingress := g.ingress ++ perms } else g)).filter
        (fun g => decide (g.groupName = EC2_SECURITY_GROUP_NAME)) =
      (gs.filter (fun g => decide (g.groupName = EC2_SECURITY_GROUP_NAME))).map
        (fun g => if g.groupId == gid then { g with ingress := g.ingress ++ perms } else g) := by
  induction gs with
  | nil => rfl
  | cons a l ih =>
    simp only [beq_iff_eq] at ih
    by_cases hid : a.groupId = gid <;>
      by_cases hn : a.groupName = EC2_SECURITY_GROUP_NAME <;>
        simp [hid, hn, ih]

/-- C1 (claim): for every cloud-client state — no injected provider fault,
every group carrying the configured name living in the target network, and at
most one such group, per the spec's uniqueness invariant — calling the
security-group resolver (`create_security_group`) twice with the same name
and network yields the same identifier from both calls, leaves at most one
group with that name in existence, and the second call creates no group (the
group list is unchanged by it). -/
theorem claim_C1_resolver_idempotent (st : St) (v : String)
    (hf : st.createGroupFault = none)
    (hvpc : ∀ g ∈ st.groups, g.groupName = EC2_SECURITY_GROUP_NAME → g.vpcId = v)
    (hone : (groupsNamed st).length ≤ 1) :
    ∃ id,
      (create_security_group v st).1 = Except.ok id ∧
      (create_security_group v (create_security_group v st).2).1 = Except.ok id ∧
      (groupsNamed (create_security_group v (create_security_group v st).2).2).length ≤ 1 ∧
      (create_security_group v (create_security_group v st).2).2.groups =
        (create_security_group v st).2.groups := by
  cases hg : groupsNamed st with
  | nil =>
    have hg2 : List.filter (fun g => decide (g.groupName = EC2_SECURITY_GROUP_NAME)) st.groups = [] := by
      simpa [groupsNamed] using hg
    have hdup : hasDupGroup st v = false := by
      cases hx : hasDupGroup st v
      · rfl
      · exact absurd hg (dup_groupsNamed_ne_nil st v hx)
    have h1 := csg_fresh v st hf hdup
    have hnone : ∀ a ∈ st.groups, ¬ a.groupName = EC2_SECURITY_GROUP_NAME := by
      simpa [List.filter_eq_nil_iff] using hg2
    have hg1 : groupsNamed (create_security_group v st).2 =
        [SecurityGroup.mk (nextGroupId st) EC2_SECURITY_GROUP_NAME v ingressPermissions] := by
      rw [h1]
      simp [groupsNamed, hg2]
      intro a ha
      have hna := hnone a ha
      by_cases hid : a.groupId = nextGroupId st <;> simp [hid, hna]
    have hf1 : (create_security_group v st).2.createGroupFault = none := by
      rw [h1]; simpa using hf
    have hdup1 : hasDupGroup (create_security_group v st).2 v = true := by
      apply hasDupGroup_of_mem _ v (SecurityGroup.mk (nextGroupId st) EC2_SECURITY_GROUP_NAME v ingressPermissions)
      · rw [h1]; simp
      · rfl
      · rfl
    have h2 := csg_dupExists_found v (create_security_group v st).2
      (SecurityGroup.mk (nextGroupId st) EC2_SECURITY_GROUP_NAME v ingressPermissions) []
      hf1 hdup1 hg1
    refine ⟨nextGroupId st, by rw [h1], by rw [h2], ?_, by rw [h2]⟩
    rw [h2]
    have : groupsNamed { (create_security_group v st).2 with
        calls := (create_security_group v st).2.calls ++
          [ApiCall.createSecurityGroupCall EC2_SECURITY_GROUP_NAME sgDescription v,
           ApiCall.describeSecurityGroupsCall [EC2_SECURITY_GROUP_NAME]] } =
        groupsNamed (create_security_group v st).2 := by
      simp [groupsNamed]
    rw [this, hg1]
    simp
  | cons g0 rest =>
    have hrest : rest = [] := by
      cases rest with
      | nil => rfl
      | cons x xs => rw [hg] at hone; simp at hone
    subst hrest
    have hmem : g0 ∈ groupsNamed st := by rw [hg]; exact List.mem_cons_self g0 []
    have hmem2 : g0 ∈ st.groups ∧ g0.groupName = EC2_SECURITY_GROUP_NAME := by
      simpa [groupsNamed, List.mem_filter] using hmem
    have hname : g0.groupName = EC2_SECURITY_GROUP_NAME := hmem2.2
    have hvp : g0.vpcId = v := hvpc g0 hmem2.1 hname
    have hdup : hasDupGroup st v = true := hasDupGroup_of_mem st v g0 hmem2.1 hname hvp
    have h1 := csg_dupExists_found v st g0 [] hf hdup hg
    have hgNamed1 : groupsNamed (create_security_group v st).2 = [g0] := by
      rw [h1]
      simpa [groupsNamed] using hg
    have hf1 : (create_security_group v st).2.createGroupFault = none := by
      rw [h1]; simpa using hf
    have hdup1 : hasDupGroup (create_security_group v st).2 v = true := by
      apply hasDupGroup_of_mem _ v g0 _ hname hvp
      rw [h1]
      simpa using hmem2.1
    have h2 := csg_dupExists_found v (create_security_group v st).2 g0 [] hf1 hdup1 hgNamed1
    refine ⟨g0.groupId, by rw [h1], by rw [h2], ?_, by rw [h2]⟩
    rw [h2]
    have : groupsNamed { (create_security_group v st).2 with
        calls := (create_security_group v st).2.calls ++
          [ApiCall.createSecurityGroupCall EC2_SECURITY_GROUP_NAME sgDescription v,
           ApiCall.describeSecurityGroupsCall [EC2_SECURITY_GROUP_NAME]] } =
        groupsNamed (create_security_group v st).2 := by
      simp [groupsNamed]
    rw [this, hgNamed1]
    simp

/-- Witness for C1 at the concrete scenario state. -/
theorem claim_C1_witness :
    scenarioSt.createGroupFault = none ∧
    (∀ g ∈ scenarioSt.groups, g.groupName = EC2_SECURITY_GROUP_NAME → g.vpcId = "vpc-1") ∧
    (groupsNamed scenarioSt).length ≤ 1 ∧
    (∃ id,
      (create_security_group "vpc-1" scenarioSt).1 = Except.ok id ∧
      (create_security_group "vpc-1" (create_security_group "vpc-1" scenarioSt).2).1 = Except.ok id ∧
      (groupsNamed (create_security_group "vpc-1" (create_security_group "vpc-1" scenarioSt).2).2).length ≤ 1 ∧
      (create_security_group "vpc-1" (create_security_group "vpc-1" scenarioSt).2).2.groups =
        (create_security_group "vpc-1" scenarioSt).2.groups) :=
  ⟨rfl, by simp [scenarioSt], by decide,
    claim_C1_resolver_idempotent scenarioSt "vpc-1" rfl (by simp [scenarioSt]) (by decide)⟩

end Ec2Deploy

namespace Ec2Deploy

/-- Authorizing ingress on an identifier no listed group carries leaves every
listed group unchanged. -/
theorem map_authorize_id (l : List SecurityGroup) (gid : String) (perms : List IpPermission)
    (h : ∀ g ∈ l, g.groupId ≠ gid) :
    l.map (fun g => if g.groupId == gid then { g with ingress := g.ingress ++ perms } else g) = l := by
  induction l with
  | nil => rfl
  | cons a t ih =>
    have ha := h a (List.mem_cons_self a t)
    have iht := ih (fun g hg => h g (List.mem_cons_of_mem a hg))
    simp only [beq_iff_eq] at iht
    simp [ha, iht]

/-- C3 (claim): whenever group creation is rejected as a duplicate (a group
with the configured name already exists in the network), the resolver issues
exactly one lookup-by-name query and nothing else, returns the pre-existing
group's identifier without raising or exiting, and re-applies no ingress
rules — the whole group state and log are untouched. -/
theorem claim_C3_duplicate_fallback (st : St) (v : String) (g : SecurityGroup)
    (hf : st.createGroupFault = none)
    (hg : g ∈ st.groups)
    (hn : g.groupName = EC2_SECURITY_GROUP_NAME)
    (hvp : g.vpcId = v) :
    ∃ g0, g0 ∈ st.groups ∧
      (create_security_group v st).1 = Except.ok g0.groupId ∧
      (create_security_group v st).2.calls = st.calls ++
        [ApiCall.createSecurityGroupCall EC2_SECURITY_GROUP_NAME sgDescription v,
         ApiCall.describeSecurityGroupsCall [EC2_SECURITY_GROUP_NAME]] ∧
      (create_security_group v st).2.groups = st.groups ∧
      (create_security_group v st).2.log = st.log := by
  have hdup : hasDupGroup st v = true := hasDupGroup_of_mem st v g hg hn hvp
  obtain ⟨g0, rest, hgn⟩ := List.exists_cons_of_ne_nil (dup_groupsNamed_ne_nil st v hdup)
  have h1 := csg_dupExists_found v st g0 rest hf hdup hgn
  have hg0 : g0 ∈ st.groups := by
    have : g0 ∈ groupsNamed st := by rw [hgn]; exact List.mem_cons_self g0 rest
    exact (List.mem_filter.mp this).1
  exact ⟨g0, hg0, by rw [h1], by rw [h1], by rw [h1], by rw [h1]⟩

/-- A client state already holding the pre-existing group "sg-existing" of
the spec's duplicate-group scenario. -/
def c3St : St :=
  { scenarioSt with groups := [SecurityGroup.mk "sg-existing" EC2_SECURITY_GROUP_NAME "vpc-1" []] }

/-- Witness for C3 at the duplicate-group scenario state. -/
theorem claim_C3_witness :
    c3St.createGroupFault = none ∧
    SecurityGroup.mk "sg-existing" EC2_SECURITY_GROUP_NAME "vpc-1" [] ∈ c3St.groups ∧
    (SecurityGroup.mk "sg-existing" EC2_SECURITY_GROUP_NAME "vpc-1" []).groupName = EC2_SECURITY_GROUP_NAME ∧
    (SecurityGroup.mk "sg-existing" EC2_SECURITY_GROUP_NAME "vpc-1" []).vpcId = "vpc-1" ∧
    (∃ g0, g0 ∈ c3St.groups ∧
      (create_security_group "vpc-1" c3St).1 = Except.ok g0.groupId ∧
      (create_security_group "vpc-1" c3St).2.calls = c3St.calls ++
        [ApiCall.createSecurityGroupCall EC2_SECURITY_GROUP_NAME sgDescription "vpc-1",
         ApiCall.describeSecurityGroupsCall [EC2_SECURITY_GROUP_NAME]] ∧
      (create_security_group "vpc-1" c3St).2.groups = c3St.groups ∧
      (create_security_group "vpc-1" c3St).2.log = c3St.log) :=
  ⟨rfl, by simp [c3St], rfl, rfl,
    claim_C3_duplicate_fallback c3St "vpc-1"
      (SecurityGroup.mk "sg-existing" EC2_SECURITY_GROUP_NAME "vpc-1" [])
      rfl (by simp [c3St]) rfl rfl⟩

/-- C6 (claim): when the resolver creates a new group (no duplicate present,
no provider fault, and the provider hands out an identifier not already in
use), the rules applied to the new group are exactly TCP port 22 and TCP
port 80, each from 0.0.0.0/0, and every other group's rule set is untouched:
the final group list is precisely the new group, with exactly those two
rules, prepended to the unchanged previous groups. -/
theorem claim_C6_ingress_rules (st : St) (v : String)
    (hf : st.createGroupFault = none)
    (hd : hasDupGroup st v = false)
    (hfresh : ∀ g ∈ st.groups, g.groupId ≠ nextGroupId st) :
    (create_security_group v st).1 = Except.ok (nextGroupId st) ∧
    (create_security_group v st).2.groups =
      SecurityGroup.mk (nextGroupId st) EC2_SECURITY_GROUP_NAME v ingressPermissions :: st.groups ∧
    ingressPermissions =
      [IpPermission.mk "tcp" 22 22 ["0.0.0.0/0"],
       IpPermission.mk "tcp" 80 80 ["0.0.0.0/0"]] := by
  have h1 := csg_fresh v st hf hd
  refine ⟨by rw [h1], ?_, rfl⟩
  rw [h1]
  have ht := map_authorize_id st.groups (nextGroupId st) ingressPermissions hfresh
  simp only [beq_iff_eq] at ht
  simp [ht]

/-- Witness for C6 at the concrete scenario state. -/
theorem claim_C6_witness :
    scenarioSt.createGroupFault = none ∧
    hasDupGroup scenarioSt "vpc-1" = false ∧
    (∀ g ∈ scenarioSt.groups, g.groupId ≠ nextGroupId scenarioSt) ∧
    ((create_security_group "vpc-1" scenarioSt).1 = Except.ok (nextGroupId scenarioSt) ∧
     (create_security_group "vpc-1" scenarioSt).2.groups =
       SecurityGroup.mk (nextGroupId scenarioSt) EC2_SECURITY_GROUP_NAME "vpc-1" ingressPermissions :: scenarioSt.groups ∧
     ingressPermissions =
       [IpPermission.mk "tcp" 22 22 ["0.0.0.0/0"],
        IpPermission.mk "tcp" 80 80 ["0.0.0.0/0"]]) :=
  ⟨rfl, rfl, by simp [scenarioSt],
    claim_C6_ingress_rules scenarioSt "vpc-1" rfl rfl (by simp [scenarioSt])⟩

end Ec2Deploy

namespace Ec2Deploy

/-- C8 (claim): a group-creation failure not classified as duplicate is
fatal: the error is logged and the process exits with status 1; no instance
is created, no group appears, and no further provisioning or monitoring call
is issued — there is no compensating action. -/
theorem claim_C8_fatal_group_error (st : St) (v m : String) (vs : List String)
    (hv : st.vpcs = v :: vs)
    (hf : st.createGroupFault = some m)
    (hnd : strHasSub "InvalidGroup.Duplicate" m = false) :
    (main st).1 = Except.error (PyExc.systemExit 1) ∧
    (main st).2.log = st.log ++
      [LogEntry.info "Starting Langraph website deployment on AWS EC2...",
       LogEntry.error ("Error creating security group: " ++ m)] ∧
    (main st).2.instances = st.instances ∧
    (main st).2.groups = st.groups ∧
    countCreateInstanceCalls (main st).2.calls = countCreateInstanceCalls st.calls ∧
    countMonitorCalls (main st).2.calls = countMonitorCalls st.calls := by
  have hc := csg_nondupFault v m
    { afterStartLog st with calls := (afterStartLog st).calls ++ [ApiCall.describeVpcsCall] }
    (by simp [afterStartLog, hf]) hnd
  rw [main_launch_err st _ _ (launch_sg_err (afterStartLog st) _ v vs _
    (by simp [afterStartLog, hv]) hc)]
  refine ⟨rfl, ?_, by simp [afterStartLog], by simp [afterStartLog], ?_, ?_⟩ <;>
    simp [afterStartLog, countCreateInstanceCalls, countMonitorCalls, List.append_assoc]

/-- An injected provider failure message that is not a duplicate-name
condition. -/
def c8msg : String :=
  "An error occurred (UnauthorizedOperation) when calling the CreateSecurityGroup operation"

/-- A client state with that non-duplicate provider failure injected. -/
def c8St : St := { scenarioSt with createGroupFault := some c8msg }

/-- Witness for C8 at a concrete faulted state. -/
theorem claim_C8_witness :
    c8St.vpcs = "vpc-1" :: [] ∧
    c8St.createGroupFault = some c8msg ∧
    strHasSub "InvalidGroup.Duplicate" c8msg = false ∧
    ((main c8St).1 = Except.error (PyExc.systemExit 1) ∧
     (main c8St).2.log = c8St.log ++
       [LogEntry.info "Starting Langraph website deployment on AWS EC2...",
        LogEntry.error ("Error creating security group: " ++ c8msg)] ∧
     (main c8St).2.instances = c8St.instances ∧
     (main c8St).2.groups = c8St.groups ∧
     countCreateInstanceCalls (main c8St).2.calls = countCreateInstanceCalls c8St.calls ∧
     countMonitorCalls (main c8St).2.calls = countMonitorCalls c8St.calls) :=
  ⟨rfl, rfl, by decide,
    claim_C8_fatal_group_error c8St "vpc-1" c8msg [] rfl rfl (by decide)⟩

/-- C10 (claim): the two empty-response hazards.  With no networks in the
describe-networks response, `main` subscripts an empty list and dies with an
uncaught `IndexError` — no log line beyond the banner, in particular not the
logged fatal-exit path.  Likewise, when a duplicate-classified failure occurs
but the lookup-by-name response holds no groups, the resolver subscripts an
empty list and raises `IndexError`, logging nothing.  The logged exit path is
reached only for classified client errors. -/
theorem claim_C10_empty_responses :
    (∀ st : St, st.vpcs = [] →
      (main st).1 = Except.error PyExc.indexError ∧
      (main st).2.log = st.log ++
        [LogEntry.info "Starting Langraph website deployment on AWS EC2..."] ∧
      (main st).2.calls = st.calls ++ [ApiCall.describeVpcsCall]) ∧
    (∀ (st : St) (v m : String), st.createGroupFault = some m →
      strHasSub "InvalidGroup.Duplicate" m = true →
      groupsNamed st = [] →
      (create_security_group v st).1 = Except.error PyExc.indexError ∧
      (create_security_group v st).2.log = st.log) := by
  constructor
  · intro st hv
    rw [main_launch_err st _ _ (launch_vpcs_nil (afterStartLog st) (by simp [afterStartLog, hv]))]
    refine ⟨rfl, ?_, ?_⟩ <;> simp [afterStartLog]
  · intro st v m hf hd hg
    rw [csg_dupFault_empty v m st hf hd hg]
    exact ⟨rfl, rfl⟩

/-- A client state whose network list is empty. -/
def c10aSt : St := { scenarioSt with vpcs := [] }

/-- A client state with an injected duplicate-classified failure but no
group of the hardcoded name to find. -/
def c10bSt : St := { scenarioSt with createGroupFault := some duplicateGroupMsg }

/-- Witness for C10 at both concrete states. -/
theorem claim_C10_witness :
    (c10aSt.vpcs = [] ∧
      (main c10aSt).1 = Except.error PyExc.indexError ∧
      (main c10aSt).2.log = c10aSt.log ++
        [LogEntry.info "Starting Langraph website deployment on AWS EC2..."] ∧
      (main c10aSt).2.calls = c10aSt.calls ++ [ApiCall.describeVpcsCall]) ∧
    (c10bSt.createGroupFault = some duplicateGroupMsg ∧
      strHasSub "InvalidGroup.Duplicate" duplicateGroupMsg = true ∧
      groupsNamed c10bSt = [] ∧
      (create_security_group "vpc-1" c10bSt).1 = Except.error PyExc.indexError ∧
      (create_security_group "vpc-1" c10bSt).2.log = c10bSt.log) :=
  ⟨⟨rfl, claim_C10_empty_responses.1 c10aSt rfl⟩,
   ⟨rfl, by decide, rfl, claim_C10_empty_responses.2 c10bSt "vpc-1" duplicateGroupMsg rfl (by decide) rfl⟩⟩

end Ec2Deploy

namespace Ec2Deploy

/-- C7 (claim): when the created instance never reports `running` within the
waiter's polling bound, the run dies with the waiter's timeout error — an
exception distinct from both the creation-rejection exit and any client
error, and uncaught because it is not a `ClientError` — and no monitoring
call, settle sleep or endpoint report happens after it: the last log line is
the launch announcement. -/
theorem claim_C7_wait_timeout (st : St) (v : String) (vs : List String)
    (hv : st.vpcs = v :: vs)
    (hf : st.createGroupFault = none)
    (hcf : st.createInstanceFault = none)
    (hk : st.runningAfterPolls = none ∨
      ∃ k, st.runningAfterPolls = some k ∧ st.waiterMaxAttempts < k) :
    (main st).1 = Except.error (PyExc.waiterError waiterTimeoutMsg) ∧
    (∀ c : Nat, PyExc.waiterError waiterTimeoutMsg ≠ PyExc.systemExit c) ∧
    (∀ s : String, PyExc.waiterError waiterTimeoutMsg ≠ PyExc.clientError s) ∧
    countMonitorCalls (main st).2.calls = countMonitorCalls st.calls ∧
    (main st).2.sleeps = st.sleeps ∧
    (main st).2.log.getLast? =
      some (LogEntry.info ("Launching EC2 instance " ++ nextInstanceId st ++ "...")) := by
  have hv2 : (afterStartLog st).vpcs = v :: vs := by simp [afterStartLog, hv]
  have step :
      ∀ stB : St, ∀ sg : String,
        create_security_group v
          { afterStartLog st with calls := (afterStartLog st).calls ++ [ApiCall.describeVpcsCall] } =
          (Except.ok sg, stB) →
        stB.createInstanceFault = st.createInstanceFault →
        stB.runningAfterPolls = st.runningAfterPolls →
        stB.waiterMaxAttempts = st.waiterMaxAttempts →
        stB.instanceIdSupply = st.instanceIdSupply →
        stB.sleeps = st.sleeps →
        countMonitorCalls stB.calls = countMonitorCalls st.calls →
        launch_ec2_instance (afterStartLog st) =
          (Except.error (PyExc.waiterError waiterTimeoutMsg),
           { stB with
             instances := madeInstance stB sg :: stB.instances,
             instanceIdSupply := stB.instanceIdSupply.drop 1,
             calls := stB.calls ++ [ApiCall.createInstancesCall (runInstancesRequest sg),
                                    ApiCall.waitUntilRunningCall (nextInstanceId stB)],
             log := stB.log ++ [LogEntry.info ("Launching EC2 instance " ++ nextInstanceId stB ++ "...")] }) := by
    intro stB sg hc hcf2 hkb hwb his hsl hmc
    rcases hk with hnone | ⟨k, hsome, hlt⟩
    · exact launch_timeout_none (afterStartLog st) stB v sg vs hv2 hc (hcf2.trans hcf) (hkb.trans hnone)
    · exact launch_timeout_late (afterStartLog st) stB v sg vs k hv2 hc (hcf2.trans hcf)
        (hkb.trans hsome) (by rw [hwb]; exact hlt)
  by_cases hdup : hasDupGroup st v = true
  · obtain ⟨g0, rest, hg⟩ := List.exists_cons_of_ne_nil (dup_groupsNamed_ne_nil st v hdup)
    have hc := csg_dupExists_found v
      { afterStartLog st with calls := (afterStartLog st).calls ++ [ApiCall.describeVpcsCall] }
      g0 rest
      (by simp [afterStartLog, hf])
      (by simpa [hasDupGroup, afterStartLog] using hdup)
      (by simpa [groupsNamed, afterStartLog] using hg)
    have hl := step _ g0.groupId hc (by simp [afterStartLog]) (by simp [afterStartLog])
      (by simp [afterStartLog]) (by simp [afterStartLog]) (by simp [afterStartLog])
      (by simp [afterStartLog, countMonitorCalls])
    rw [main_launch_err st _ _ hl]
    refine ⟨rfl, ?_, ?_, ?_, ?_, ?_⟩ <;>
      simp [afterStartLog, countMonitorCalls, nextInstanceId, List.append_assoc]
  · have hdup2 : hasDupGroup st v = false := by
      cases hx : hasDupGroup st v
      · rfl
      · exact absurd hx hdup
    have hc := csg_fresh v
      { afterStartLog st with calls := (afterStartLog st).calls ++ [ApiCall.describeVpcsCall] }
      (by simp [afterStartLog, hf])
      (by simpa [hasDupGroup, afterStartLog] using hdup2)
    have hl := step _ _ hc (by simp [afterStartLog]) (by simp [afterStartLog])
      (by simp [afterStartLog]) (by simp [afterStartLog]) (by simp [afterStartLog])
      (by simp [afterStartLog, countMonitorCalls])
    rw [main_launch_err st _ _ hl]
    refine ⟨rfl, ?_, ?_, ?_, ?_, ?_⟩ <;>
      simp [afterStartLog, countMonitorCalls, nextInstanceId, List.append_assoc]

/-- A client state whose instance never reaches `running`. -/
def c7St : St := { scenarioSt with runningAfterPolls := none }

/-- Witness for C7 at a concrete never-running state. -/
theorem claim_C7_witness :
    c7St.vpcs = "vpc-1" :: [] ∧
    c7St.createGroupFault = none ∧
    c7St.createInstanceFault = none ∧
    (c7St.runningAfterPolls = none ∨
      ∃ k, c7St.runningAfterPolls = some k ∧ c7St.waiterMaxAttempts < k) ∧
    ((main c7St).1 = Except.error (PyExc.waiterError waiterTimeoutMsg) ∧
     (∀ c : Nat, PyExc.waiterError waiterTimeoutMsg ≠ PyExc.systemExit c) ∧
     (∀ s : String, PyExc.waiterError waiterTimeoutMsg ≠ PyExc.clientError s) ∧
     countMonitorCalls (main c7St).2.calls = countMonitorCalls c7St.calls ∧
     (main c7St).2.sleeps = c7St.sleeps ∧
     (main c7St).2.log.getLast? =
       some (LogEntry.info ("Launching EC2 instance " ++ nextInstanceId c7St ++ "..."))) :=
  ⟨rfl, rfl, rfl, Or.inl rfl,
    claim_C7_wait_timeout c7St "vpc-1" [] rfl rfl rfl (Or.inl rfl)⟩

end Ec2Deploy

namespace Ec2Deploy

/-- C2 (claim): every instance-creation request the provisioner submits asks
for exactly one instance (MinCount = MaxCount = 1), and every successful run
ends with exactly one new instance resource — running, tagged with the
configured name — added to the client state. -/
theorem claim_C2_exactly_one_instance :
    (∀ sg_id : String,
      (runInstancesRequest sg_id).minCount = 1 ∧ (runInstancesRequest sg_id).maxCount = 1) ∧
    (∀ st : St, (main st).1 = Except.ok () →
      (main st).2.instances.length = st.instances.length + 1 ∧
      ∃ j, (main st).2.instances.head? = some j ∧
        j.tags = [Tag.mk "Name" EC2_TAG_NAME] ∧ j.state = InstState.running) := by
  refine ⟨fun sg_id => ⟨rfl, rfl⟩, fun st h => ?_⟩
  obtain ⟨-, -, -, hD, hE, -⟩ := main_ok_facts st h
  exact ⟨hD, hE⟩

/-- Witness for C2 at the concrete end-to-end scenario. -/
theorem claim_C2_witness :
    (main scenarioSt).1 = Except.ok () ∧
    ((main scenarioSt).2.instances.length = scenarioSt.instances.length + 1 ∧
     ∃ j, (main scenarioSt).2.instances.head? = some j ∧
       j.tags = [Tag.mk "Name" EC2_TAG_NAME] ∧ j.state = InstState.running) :=
  ⟨rfl, claim_C2_exactly_one_instance.2 scenarioSt rfl⟩

end Ec2Deploy

namespace Ec2Deploy

/-- The waiter's in-place update keeps every instance's identifier. -/
theorem wait_map_keeps_id (i : Inst) (iid : String) (i2 : Inst) (h2 : i2.instanceId = iid) :
    (if i.instanceId == iid then i2 else i).instanceId = i.instanceId := by
  by_cases hid : i.instanceId = iid
  · simp [hid, h2]
  · simp [hid]

/-- Once the group is resolved, no later step of the run ever removes a
group or an instance from the client state, whatever the outcome. -/
theorem preserved_after_sg (st stB : St) (v sg : String) (vs : List String)
    (hv : st.vpcs = v :: vs)
    (hc : create_security_group v
      { afterStartLog st with calls := (afterStartLog st).calls ++ [ApiCall.describeVpcsCall] } =
      (Except.ok sg, stB))
    (hgp : ∀ g ∈ st.groups, ∃ g2 ∈ stB.groups, g2.groupId = g.groupId)
    (hip : stB.instances = st.instances) :
    (∀ g ∈ st.groups, ∃ g2 ∈ (main st).2.groups, g2.groupId = g.groupId) ∧
    (∀ i ∈ st.instances, ∃ i2 ∈ (main st).2.instances, i2.instanceId = i.instanceId) := by
  have hv2 : (afterStartLog st).vpcs = v :: vs := by simp [afterStartLog, hv]
  cases hcf : stB.createInstanceFault with
  | some m =>
    rw [main_launch_err st _ _ (launch_createFault (afterStartLog st) stB v sg m vs hv2 hc hcf)]
    exact ⟨fun g hg => by simpa using hgp g hg,
           fun i hi => ⟨i, by simp [hip, hi], rfl⟩⟩
  | none =>
    cases hk : stB.runningAfterPolls with
    | none =>
      rw [main_launch_err st _ _ (launch_timeout_none (afterStartLog st) stB v sg vs hv2 hc hcf hk)]
      exact ⟨fun g hg => by simpa using hgp g hg,
             fun i hi => ⟨i, by simp [hip, hi], rfl⟩⟩
    | some k =>
      by_cases hb : k ≤ stB.waiterMaxAttempts
      · rw [main_launch_ok st _ _ (launch_ok (afterStartLog st) stB v sg vs k hv2 hc hcf hk hb)]
        constructor
        · intro g hg
          obtain ⟨g2, hg2, hid⟩ := hgp g hg
          refine ⟨g2, ?_, hid⟩
          cases hm : stB.monitorFault <;> simp [finalize, monEffect, hm, hg2]
        · intro i hi
          have hiB : i ∈ stB.instances := by rw [hip]; exact hi
          refine ⟨if i.instanceId == nextInstanceId stB then runInstance stB sg else i, ?_, ?_⟩
          · cases hm : stB.monitorFault <;>
              · simp only [finalize, monEffect, hm]
                simp only [List.mem_map, List.mem_cons]
                exact ⟨i, Or.inr hiB, rfl⟩
          · exact wait_map_keeps_id i (nextInstanceId stB) (runInstance stB sg)
              (by simp [runInstance, madeInstance])
      · have hb2 : stB.waiterMaxAttempts < k := Nat.lt_of_not_le hb
        rw [main_launch_err st _ _ (launch_timeout_late (afterStartLog st) stB v sg vs k hv2 hc hcf hk hb2)]
        exact ⟨fun g hg => by simpa using hgp g hg,
               fun i hi => ⟨i, by simp [hip, hi], rfl⟩⟩

/-- C9 (claim): a successful run performs its steps in the fixed linear
order — network lookup, group resolution (creation with ingress authorization
or a single duplicate lookup), one instance creation, the wait until running,
the monitoring attempt, the fixed 60-second settle sleep with no verification
of the boot payload, and the terminal report as the very last log line — with
no step skipped, reordered or repeated; and on every run, whatever its
outcome, no earlier-created resource is rolled back: every group and every
instance present before the run is still present (same identifier) after it. -/
theorem claim_C9_linear_order :
    (∀ st : St, (main st).1 = Except.ok () →
      (∃ v vs, st.vpcs = v :: vs ∧
        ((main st).2.calls = st.calls ++ freshRunTrace st v ∨
         ∃ g0 rest, groupsNamed st = g0 :: rest ∧
           (main st).2.calls = st.calls ++ dupRunTrace st v g0.groupId)) ∧
      (main st).2.sleeps = st.sleeps ++ [60] ∧
      (main st).2.log.getLast? = some (LogEntry.info deploymentCompleteMsg)) ∧
    (∀ st : St,
      (∀ g ∈ st.groups, ∃ g2 ∈ (main st).2.groups, g2.groupId = g.groupId) ∧
      (∀ i ∈ st.instances, ∃ i2 ∈ (main st).2.instances, i2.instanceId = i.instanceId)) := by
  constructor
  · intro st h
    obtain ⟨hA, hB, hC, -⟩ := main_ok_facts st h
    exact ⟨hA, hB, hC⟩
  · intro st
    cases hv : st.vpcs with
    | nil =>
      rw [main_launch_err st _ _ (launch_vpcs_nil (afterStartLog st) (by simp [afterStartLog, hv]))]
      exact ⟨fun g hg => ⟨g, by simpa [afterStartLog] using hg, rfl⟩,
             fun i hi => ⟨i, by simpa [afterStartLog] using hi, rfl⟩⟩
    | cons v vs =>
      have hv2 : (afterStartLog st).vpcs = v :: vs := by simp [afterStartLog, hv]
      cases hf : st.createGroupFault with
      | some m =>
        cases hd : strHasSub "InvalidGroup.Duplicate" m with
        | false =>
          have hc := csg_nondupFault v m
            { afterStartLog st with calls := (afterStartLog st).calls ++ [ApiCall.describeVpcsCall] }
            (by simp [afterStartLog, hf]) hd
          rw [main_launch_err st _ _ (launch_sg_err (afterStartLog st) _ v vs _ hv2 hc)]
          exact ⟨fun g hg => ⟨g, by simpa [afterStartLog] using hg, rfl⟩,
                 fun i hi => ⟨i, by simpa [afterStartLog] using hi, rfl⟩⟩
        | true =>
          cases hg : groupsNamed st with
          | nil =>
            have hc := csg_dupFault_empty v m
              { afterStartLog st with calls := (afterStartLog st).calls ++ [ApiCall.describeVpcsCall] }
              (by simp [afterStartLog, hf]) hd
              (by simpa [groupsNamed, afterStartLog] using hg)
            rw [main_launch_err st _ _ (launch_sg_err (afterStartLog st) _ v vs _ hv2 hc)]
            exact ⟨fun g hgm => ⟨g, by simpa [afterStartLog] using hgm, rfl⟩,
                   fun i hi => ⟨i, by simpa [afterStartLog] using hi, rfl⟩⟩
          | cons g0 rest =>
            have hc := csg_dupFault_found v m
              { afterStartLog st with calls := (afterStartLog st).calls ++ [ApiCall.describeVpcsCall] }
              g0 rest
              (by simp [afterStartLog, hf]) hd
              (by simpa [groupsNamed, afterStartLog] using hg)
            exact preserved_after_sg st _ v g0.groupId vs hv hc
              (fun g hgm => ⟨g, by simp [afterStartLog, hgm], rfl⟩)
              (by simp [afterStartLog])
      | none =>
        by_cases hdup : hasDupGroup st v = true
        · obtain ⟨g0, rest, hg⟩ := List.exists_cons_of_ne_nil (dup_groupsNamed_ne_nil st v hdup)
          have hc := csg_dupExists_found v
            { afterStartLog st with calls := (afterStartLog st).calls ++ [ApiCall.describeVpcsCall] }
            g0 rest
            (by simp [afterStartLog, hf])
            (by simpa [hasDupGroup, afterStartLog] using hdup)
            (by simpa [groupsNamed, afterStartLog] using hg)
          exact preserved_after_sg st _ v g0.groupId vs hv hc
            (fun g hgm => ⟨g, by simp [afterStartLog, hgm], rfl⟩)
            (by simp [afterStartLog])
        · have hdup2 : hasDupGroup st v = false := by
            cases hx : hasDupGroup st v
            · rfl
            · exact absurd hx hdup
          have hc := csg_fresh v
            { afterStartLog st with calls := (afterStartLog st).calls ++ [ApiCall.describeVpcsCall] }
            (by simp [afterStartLog, hf])
            (by simpa [hasDupGroup, afterStartLog] using hdup2)
          refine preserved_after_sg st _ v _ vs hv hc ?_ (by simp [afterStartLog])
          intro g hgm
          refine ⟨if g.groupId == nextGroupId { afterStartLog st with
              calls := (afterStartLog st).calls ++ [ApiCall.describeVpcsCall] } then
              { g with ingress := g.ingress ++ ingressPermissions } else g, ?_, ?_⟩
          · simp only [List.mem_map, List.mem_cons]
            exact ⟨g, Or.inr (by simpa [afterStartLog] using hgm), rfl⟩
          · by_cases hid : g.groupId = nextGroupId { afterStartLog st with
              calls := (afterStartLog st).calls ++ [ApiCall.describeVpcsCall] } <;> simp [hid]

/-- Witness for C9 at the concrete end-to-end scenario. -/
theorem claim_C9_witness :
    (main scenarioSt).1 = Except.ok () ∧
    ((∃ v vs, scenarioSt.vpcs = v :: vs ∧
        ((main scenarioSt).2.calls = scenarioSt.calls ++ freshRunTrace scenarioSt v ∨
         ∃ g0 rest, groupsNamed scenarioSt = g0 :: rest ∧
           (main scenarioSt).2.calls = scenarioSt.calls ++ dupRunTrace scenarioSt v g0.groupId)) ∧
     (main scenarioSt).2.sleeps = scenarioSt.sleeps ++ [60] ∧
     (main scenarioSt).2.log.getLast? = some (LogEntry.info deploymentCompleteMsg)) ∧
    ((∀ g ∈ scenarioSt.groups, ∃ g2 ∈ (main scenarioSt).2.groups, g2.groupId = g.groupId) ∧
     (∀ i ∈ scenarioSt.instances, ∃ i2 ∈ (main scenarioSt).2.instances, i2.instanceId = i.instanceId)) :=
  ⟨rfl, claim_C9_linear_order.1 scenarioSt rfl, claim_C9_linear_order.2 scenarioSt⟩

end Ec2Deploy

namespace Ec2Deploy

/-- C4 (claim): monitoring failure is the one swallowed error and creation
failure aborts early.  First, `setup_monitoring` returns normally on a
monitoring failure, logging only a warning.  Second, in any run that
succeeds with a failing monitoring call, the settle wait still happens and
the terminal report is still the last log line, and the very same client
state with the monitoring fault removed also ends in the same (successful)
terminal outcome.  Third, whenever instance creation fails, the run ends in
an error with no monitoring call ever issued. -/
theorem claim_C4_monitoring_nonfatal :
    (∀ (iid : String) (st : St) (m : String), st.monitorFault = some m →
      (setup_monitoring iid st).1 = Except.ok () ∧
      (setup_monitoring iid st).2.log = st.log ++
        [LogEntry.warning ("Could not enable monitoring: " ++ m)]) ∧
    (∀ (st : St) (m : String), st.monitorFault = some m → (main st).1 = Except.ok () →
      (main st).2.sleeps = st.sleeps ++ [60] ∧
      (main st).2.log.getLast? = some (LogEntry.info deploymentCompleteMsg) ∧
      (main { st with monitorFault := none }).1 = Except.ok ()) ∧
    (∀ (st : St) (m : String), st.createInstanceFault = some m →
      (∃ e, (main st).1 = Except.error e) ∧
      countMonitorCalls (main st).2.calls = countMonitorCalls st.calls) := by
  refine ⟨?_, ?_, ?_⟩
  · intro iid st m hm
    rw [setup_monitoring_eq]
    exact ⟨rfl, by simp [monEffect, hm]⟩
  · intro st m hm h
    obtain ⟨⟨v, vs, hv, -⟩, hB, hC, -, -, hF1, ⟨k, hk, hb⟩, hF3⟩ := main_ok_facts st h
    refine ⟨hB, hC, ?_⟩
    apply main_ok_of_conds _ v vs k (by simp [hv]) ?_ (by simp [hF1]) (by simp [hk]) (by simpa using hb)
    rcases hF3 with hnone | ⟨m2, hsome, hd, hne⟩
    · exact Or.inl (by simp [hnone])
    · refine Or.inr ⟨m2, by simp [hsome], hd, ?_⟩
      simpa [groupsNamed] using hne
  · intro st m hcf
    cases hv : st.vpcs with
    | nil =>
      rw [main_launch_err st _ _ (launch_vpcs_nil (afterStartLog st) (by simp [afterStartLog, hv]))]
      exact ⟨⟨PyExc.indexError, rfl⟩, by simp [afterStartLog, countMonitorCalls]⟩
    | cons v vs =>
      have hv2 : (afterStartLog st).vpcs = v :: vs := by simp [afterStartLog, hv]
      have step : ∀ stB : St, ∀ sg : String,
          create_security_group v
            { afterStartLog st with calls := (afterStartLog st).calls ++ [ApiCall.describeVpcsCall] } =
            (Except.ok sg, stB) →
          stB.createInstanceFault = st.createInstanceFault →
          countMonitorCalls stB.calls = countMonitorCalls st.calls →
          (∃ e, (main st).1 = Except.error e) ∧
          countMonitorCalls (main st).2.calls = countMonitorCalls st.calls := by
        intro stB sg hc hcf2 hmc
        rw [main_launch_err st _ _ (launch_createFault (afterStartLog st) stB v sg m vs hv2 hc
          (hcf2.trans hcf))]
        refine ⟨⟨PyExc.systemExit 1, rfl⟩, ?_⟩
        have hmc2 := hmc
        simp only [countMonitorCalls] at hmc2
        simp [countMonitorCalls, hmc2]
      cases hf : st.createGroupFault with
      | some m2 =>
        cases hd : strHasSub "InvalidGroup.Duplicate" m2 with
        | false =>
          have hc := csg_nondupFault v m2
            { afterStartLog st with calls := (afterStartLog st).calls ++ [ApiCall.describeVpcsCall] }
            (by simp [afterStartLog, hf]) hd
          rw [main_launch_err st _ _ (launch_sg_err (afterStartLog st) _ v vs _ hv2 hc)]
          exact ⟨⟨PyExc.systemExit 1, rfl⟩, by simp [afterStartLog, countMonitorCalls]⟩
        | true =>
          cases hg : groupsNamed st with
          | nil =>
            have hc := csg_dupFault_empty v m2
              { afterStartLog st with calls := (afterStartLog st).calls ++ [ApiCall.describeVpcsCall] }
              (by simp [afterStartLog, hf]) hd
              (by simpa [groupsNamed, afterStartLog] using hg)
            rw [main_launch_err st _ _ (launch_sg_err (afterStartLog st) _ v vs _ hv2 hc)]
            exact ⟨⟨PyExc.indexError, rfl⟩, by simp [afterStartLog, countMonitorCalls]⟩
          | cons g0 rest =>
            have hc := csg_dupFault_found v m2
              { afterStartLog st with calls := (afterStartLog st).calls ++ [ApiCall.describeVpcsCall] }
              g0 rest
              (by simp [afterStartLog, hf]) hd
              (by simpa [groupsNamed, afterStartLog] using hg)
            exact step _ g0.groupId hc (by simp [afterStartLog])
              (by simp [afterStartLog, countMonitorCalls])
      | none =>
        by_cases hdup : hasDupGroup st v = true
        · obtain ⟨g0, rest, hg⟩ := List.exists_cons_of_ne_nil (dup_groupsNamed_ne_nil st v hdup)
          have hc := csg_dupExists_found v
            { afterStartLog st with calls := (afterStartLog st).calls ++ [ApiCall.describeVpcsCall] }
            g0 rest
            (by simp [afterStartLog, hf])
            (by simpa [hasDupGroup, afterStartLog] using hdup)
            (by simpa [groupsNamed, afterStartLog] using hg)
          exact step _ g0.groupId hc (by simp [afterStartLog])
            (by simp [afterStartLog, countMonitorCalls])
        · have hdup2 : hasDupGroup st v = false := by
            cases hx : hasDupGroup st v
            · rfl
            · exact absurd hx hdup
          have hc := csg_fresh v
            { afterStartLog st with calls := (afterStartLog st).calls ++ [ApiCall.describeVpcsCall] }
            (by simp [afterStartLog, hf])
            (by simpa [hasDupGroup, afterStartLog] using hdup2)
          exact step _ _ hc (by simp [afterStartLog])
            (by simp [afterStartLog, countMonitorCalls])

/-- A scenario state whose monitoring-enable call fails. -/
def c4aSt : St := { scenarioSt with monitorFault := some "monitoring unavailable" }

/-- A scenario state whose instance creation is rejected. -/
def c4bSt : St := { scenarioSt with createInstanceFault := some "InstanceLimitExceeded" }

/-- Witness for C4 at concrete faulted states. -/
theorem claim_C4_witness :
    (c4aSt.monitorFault = some "monitoring unavailable" ∧
      (setup_monitoring "i-001" c4aSt).1 = Except.ok () ∧
      (setup_monitoring "i-001" c4aSt).2.log = c4aSt.log ++
        [LogEntry.warning ("Could not enable monitoring: " ++ "monitoring unavailable")]) ∧
    (c4aSt.monitorFault = some "monitoring unavailable" ∧ (main c4aSt).1 = Except.ok () ∧
      (main c4aSt).2.sleeps = c4aSt.sleeps ++ [60] ∧
      (main c4aSt).2.log.getLast? = some (LogEntry.info deploymentCompleteMsg) ∧
      (main { c4aSt with monitorFault := none }).1 = Except.ok ()) ∧
    (c4bSt.createInstanceFault = some "InstanceLimitExceeded" ∧
      (∃ e, (main c4bSt).1 = Except.error e) ∧
      countMonitorCalls (main c4bSt).2.calls = countMonitorCalls c4bSt.calls) :=
  ⟨⟨rfl, claim_C4_monitoring_nonfatal.1 "i-001" c4aSt "monitoring unavailable" rfl⟩,
   ⟨rfl, rfl, claim_C4_monitoring_nonfatal.2.1 c4aSt "monitoring unavailable" rfl rfl⟩,
   ⟨rfl, claim_C4_monitoring_nonfatal.2.2 c4bSt "InstanceLimitExceeded" rfl⟩⟩

end Ec2Deploy

namespace Ec2Deploy

/-- C5 (counterexample): in the end-to-end scenario the run succeeds, yet the
number of group-creation calls naming "web-sg" is not one — it is zero,
because the script hardcodes the group name "langraph-web-sg" and ignores any
configured group name. -/
theorem claim_C5_counterexample :
    (main scenarioSt).1 = Except.ok () ∧
    ¬ countCreateGroupCallsFor "web-sg" (main scenarioSt).2.calls = 1 ∧
    countCreateGroupCallsFor "web-sg" (main scenarioSt).2.calls = 0 :=
  ⟨rfl, by decide, by decide⟩

/-- C5 (amended claim): for the end-to-end scenario — fake client with one
network, creating group "sg-001" and instance "i-001" which reaches `running`
after 2 polls with address 203.0.113.5 — the run succeeds, the Deployment
Result read off the final state equals
{instanceId "i-001", address "203.0.113.5", monitoringEnabled true}, and
exactly one group-creation call is issued across the whole run, for the
hardcoded name "langraph-web-sg" rather than the scenario's "web-sg". -/
theorem claim_C5_deployment_result :
    (main scenarioSt).1 = Except.ok () ∧
    deploymentResultOf (main scenarioSt).2 =
      some (DeploymentResult.mk "i-001" (some "203.0.113.5") true) ∧
    countCreateGroupCallsFor EC2_SECURITY_GROUP_NAME (main scenarioSt).2.calls = 1 :=
  ⟨rfl, by decide, by decide⟩

end Ec2Deploy
